import Mathlib

/-!
# Portfolio Scoring & Alerting Engine — verification against `dashboard.py`

Shallow embedding of the core logic of the dashboard.  Numeric cell values
are embedded as rationals (`ℚ`); the tabular input is embedded as a list of
rows over an explicit column list, so that column-level absence (pandas
`col not in df.columns`), per-cell missing values (pandas `NaN`) and
non-numeric cells (object-dtype strings) are all representable.  Fallible
operations (pandas `KeyError`, `TypeError`) return `Except`.  A pandas
aggregate that produces the float `NaN` (for example `mean` of an empty
column) is embedded as `Option ℚ` with `none` standing for `NaN`.
-/

namespace Dashboard

/-- A cell of the tabular input: a numeric value, a string value, or a
missing value (pandas `NaN`). -/
inductive Cell where
  | num (q : ℚ)
  | str (s : String)
  | na
deriving DecidableEq

/-- A data frame: a list of column names and a list of rows, each row a list
of cells positionally aligned with the column list. -/
structure DataFrame where
  cols : List String
  rows : List (List Cell)
deriving DecidableEq

/-- Well-formedness: every row has exactly one cell per column. -/
def Wf (df : DataFrame) : Prop :=
  ∀ r ∈ df.rows, r.length = df.cols.length

instance instDecidableWf (df : DataFrame) : Decidable (Wf df) :=
  inferInstanceAs (Decidable (∀ r ∈ df.rows, r.length = df.cols.length))

/-- Position of a column name in a column list (`df.columns.get_loc`);
`none` when the column is absent. -/
def colIdx : List String → String → Option Nat
  | [], _ => none
  | c :: cs, d => if c = d then some 0 else (colIdx cs d).map (· + 1)

/-- Python `col in df.columns`. -/
def hasCol (df : DataFrame) (c : String) : Bool :=
  (colIdx df.cols c).isSome

/-- Cell of row `i` in column `c`; `none` models a `KeyError` (the column is
absent from the frame). -/
def getCell (df : DataFrame) (i : Nat) (c : String) : Option Cell :=
  (colIdx df.cols c).map fun j => (df.rows.getD i []).getD j Cell.na

/-- `df[c] = v`: append a new column whose every cell is `v`. -/
def addCol (df : DataFrame) (c : String) (v : Cell) : DataFrame :=
  ⟨df.cols ++ [c], df.rows.map (· ++ [v])⟩

/-- One iteration of the normalization loop (dashboard.py lines 71-73):
`if col not in df.columns: df[col] = v`. -/
def ensureCol (df : DataFrame) (c : String) (v : Cell) : DataFrame :=
  if hasCol df c then df else addCol df c v

/-- The `required_cols` list of dashboard.py line 70. -/
def requiredCols : List String :=
  ["Prev_Score", "Score_Change", "Verdict", "Weight"]

/-- The default filled in for a missing required column
(dashboard.py line 73): `0.0 if col != "Verdict" else "N/A"`. -/
def defaultCell (c : String) : Cell :=
  if c = "Verdict" then Cell.str "N/A" else Cell.num 0

/-- The normalization loop over an arbitrary column list. -/
def normalizeAux (cs : List String) (df : DataFrame) : DataFrame :=
  cs.foldl (fun d c => ensureCol d c (defaultCell c)) df

/-- The Record Schema Normalizer: dashboard.py lines 70-73. -/
def normalizeRequired (df : DataFrame) : DataFrame :=
  normalizeAux requiredCols df

/-- `df[c]` as a whole column (pandas `Series`); `none` models `KeyError`. -/
def getCol (df : DataFrame) (c : String) : Option (List Cell) :=
  (colIdx df.cols c).map fun j => df.rows.map (·.getD j Cell.na)

/-- Element-wise subtraction of two cells, as pandas performs it inside
`df["Score"] - df["Prev_Score"]`: numeric minus numeric is numeric, `NaN`
propagates, and any string operand raises a `TypeError` that aborts the
whole statement. -/
def cellSub : Cell → Cell → Except String Cell
  | Cell.num a, Cell.num b => Except.ok (Cell.num (a - b))
  | Cell.num _, Cell.na => Except.ok Cell.na
  | Cell.na, Cell.num _ => Except.ok Cell.na
  | Cell.na, Cell.na => Except.ok Cell.na
  | _, _ => Except.error "TypeError"

/-- `true` for the cells on which pandas subtraction does not raise. -/
def cellNonStr : Cell → Bool
  | Cell.str _ => false
  | _ => true

/-- The value produced by `cellSub` on non-raising operands. -/
def cellSubVal : Cell → Cell → Cell
  | Cell.num a, Cell.num b => Cell.num (a - b)
  | _, _ => Cell.na

/-- Element-wise subtraction of two series of equal length; the first
raising cell aborts the whole series, as the vectorized pandas statement
does. -/
def zipSub : List Cell → List Cell → Except String (List Cell)
  | [], [] => Except.ok []
  | a :: ta, b :: tb =>
      match cellSub a b with
      | Except.error e => Except.error e
      | Except.ok c =>
          match zipSub ta tb with
          | Except.error e => Except.error e
          | Except.ok rest => Except.ok (c :: rest)
  | _, _ => Except.error "length mismatch"

/-- `df[c] = series`: overwrite the column when present, append it
otherwise. -/
def setCol (df : DataFrame) (c : String) (vs : List Cell) : DataFrame :=
  match colIdx df.cols c with
  | some j => ⟨df.cols, (df.rows.zip vs).map fun p => p.1.set j p.2⟩
  | none => ⟨df.cols ++ [c], (df.rows.zip vs).map fun p => p.1 ++ [p.2]⟩

/-- The Delta Calculator, dashboard.py line 76:
`df["Score_Change"] = df["Score"] - df["Prev_Score"]`.  Looking up a column
absent from the frame raises `KeyError`; a string cell in either operand
column raises `TypeError`; both abort the whole statement. -/
def computeScoreChange (df : DataFrame) : Except String DataFrame :=
  match getCol df "Score", getCol df "Prev_Score" with
  | some s, some p => (zipSub s p).map fun d => setCol df "Score_Change" d
  | _, _ => Except.error "KeyError"

/-- Numeric contents of a column, in order, for pandas `Series.mean`:
`NaN` cells are skipped (`skipna`), a string cell raises `TypeError`. -/
def cellNums : List Cell → Except String (List ℚ)
  | [] => Except.ok []
  | Cell.num q :: t => (cellNums t).map fun l => q :: l
  | Cell.na :: t => cellNums t
  | Cell.str _ :: _ => Except.error "TypeError"

/-- Pandas `Series.mean`: the mean of the numeric cells, or `NaN`
(embedded as `none`) when there are none. -/
def seriesMean (xs : List Cell) : Except String (Option ℚ) :=
  (cellNums xs).map fun qs =>
    if qs.isEmpty then none else some (qs.sum / (qs.length : ℚ))

/-- The Average Score metric, dashboard.py line 92: `df["Score"].mean()`. -/
def overviewAverageScore (df : DataFrame) : Except String (Option ℚ) :=
  match getCol df "Score" with
  | some xs => seriesMean xs
  | none => Except.error "KeyError"

/-- Python `max(x, fl)` where `x` may be the float `NaN` (embedded `none`):
`max(nan, fl)` returns `nan` because `fl > nan` is false. -/
def pyMax (x : Option ℚ) (fl : ℚ) : Option ℚ :=
  x.map fun a => max a fl

/-- The subexpression `df["Risk"].mean()` of dashboard.py line 93. -/
def overviewRiskMean (df : DataFrame) : Except String (Option ℚ) :=
  match getCol df "Risk" with
  | some xs => seriesMean xs
  | none => Except.error "KeyError"

/-- The Sharpe Estimate metric, dashboard.py line 93:
`df["Score"].mean() / max(df["Risk"].mean(), 0.1)`.  Division involving a
`NaN` operand yields `NaN`. -/
def overviewSharpe (df : DataFrame) : Except String (Option ℚ) := do
  let s ← overviewAverageScore df
  let r ← overviewRiskMean df
  pure (match s, pyMax r 0.1 with
        | some a, some b => some (a / b)
        | _, _ => none)

/-- `Except` result inspection used to state that a value was returned
rather than an error raised. -/
def exceptIsOk {α : Type} : Except String α → Bool
  | Except.ok _ => true
  | Except.error _ => false

instance instDecEqExcept {ε α : Type} [DecidableEq ε] [DecidableEq α] :
    DecidableEq (Except ε α) := fun a b =>
  match a, b with
  | Except.ok x, Except.ok y =>
      if h : x = y then isTrue (by rw [h]) else isFalse (by simp [h])
  | Except.error x, Except.error y =>
      if h : x = y then isTrue (by rw [h]) else isFalse (by simp [h])
  | Except.ok _, Except.error _ => isFalse (by simp)
  | Except.error _, Except.ok _ => isFalse (by simp)

/-! ## Typed record model

The normalized table as consumed by the alert classifier and the
aggregation code: every field the logic reads is present and numeric.
Pass-through display fields (`Company`, the four sub-scores, `Verdict`) are
omitted because no logic in the core reads them. -/

/-- One fully-populated, numeric score record. -/
structure Row where
  symbol : String
  sector : String
  score : ℚ
  prev_score : ℚ
  score_change : ℚ
  weight : ℚ
  risk : ℚ
deriving DecidableEq

/-- Round to the nearest integer, ties to even, as Python float formatting
does when printing two decimal places. -/
def roundHalfEven (x : ℚ) : Int :=
  let f := x.floor
  let r := x - (f : ℚ)
  if r < 1 / 2 then f
  else if 1 / 2 < r then f + 1
  else if f % 2 = 0 then f else f + 1

/-- Two-digit zero-padded decimal fraction. -/
def pad2 (n : Nat) : String :=
  (if n < 10 then "0" else "") ++ toString n

/-- Python format specifier `+.2f`: explicit sign, two decimal places. -/
def fmtSigned2 (q : ℚ) : String :=
  let n : Int := roundHalfEven (q * 100)
  let sgn := if n < 0 ∨ (n = 0 ∧ q < 0) then "-" else "+"
  let m := n.natAbs
  sgn ++ toString (m / 100) ++ "." ++ pad2 (m % 100)

/-- The SELL-signal message of dashboard.py line 24, including its
leading warning emoji. -/
def sellMsg (r : Row) : String :=
  "⚠️ " ++ r.symbol ++ ": Score < 5.0 → SELL signal"

/-- The review-position message of dashboard.py line 26, including its
leading bell emoji. -/
def reviewMsg (r : Row) : String :=
  "🔔 " ++ r.symbol ++ ": Δ Score " ++ fmtSigned2 r.score_change ++ " → Review position"

/-- The Alert Classifier, dashboard.py lines 20-27: the accumulating row
loop is rendered as structural recursion over the row list. -/
def calculate_alerts : List Row → List String
  | [] => []
  | r :: t =>
    (if r.score < 5.0 then [sellMsg r]
     else if |r.score_change| > 0.8 then [reviewMsg r]
     else []) ++ calculate_alerts t

/-- Modelled from the claim's per-row first-match rule: the alert (if any)
a single row produces.  Stated separately from `calculate_alerts` so that
the classifier can be proved equal to `List.filterMap` of this rule. -/
def alertLineSpec (r : Row) : Option String :=
  if r.score < 5.0 then some (sellMsg r)
  else if |r.score_change| > 0.8 then some (reviewMsg r)
  else none

/-- The per-row delta assignment of dashboard.py line 76 on the typed
model. -/
def deltaRow (r : Row) : Row :=
  { r with score_change := r.score - r.prev_score }

/-- The Delta Calculator applied to every row of the typed table. -/
def deltaTable (rows : List Row) : List Row :=
  rows.map deltaRow

/-- Overwrite a row's `score_change` with an arbitrary caller-supplied
value (used to state that the pipeline never trusts that field). -/
def setScoreChange (r : Row) (x : ℚ) : Row :=
  { r with score_change := x }

/-- The distinct sectors of the table, the key domain of the groupby of
dashboard.py line 30. -/
def sectors (rows : List Row) : List String :=
  (rows.map Row.sector).dedup

/-- Total weight of one sector: the sum of `Weight` over exactly the rows
of that sector (dashboard.py line 30). -/
def sectorWeight (rows : List Row) (s : String) : ℚ :=
  ((rows.filter fun r => r.sector = s).map Row.weight).sum

/-- The data content of `plot_sector_allocation` (dashboard.py line 30):
`df.groupby("Sector")["Weight"].sum()` as a sector → total-weight mapping.
The key order pandas produces (sorted group keys) is irrelevant to the
mapping semantics; keys are listed here in the order `List.dedup`
produces, and every theorem below is stated order-independently. -/
def sector_allocation (rows : List Row) : List (String × ℚ) :=
  (sectors rows).map fun s => (s, sectorWeight rows s)

/-- Mean of `Score` over the typed table (dashboard.py line 92 on fully
numeric data). -/
def averageScore (rows : List Row) : ℚ :=
  (rows.map Row.score).sum / (rows.length : ℚ)

/-- Mean of `Risk` over the typed table. -/
def averageRisk (rows : List Row) : ℚ :=
  (rows.map Row.risk).sum / (rows.length : ℚ)

/-- The typed table rendered back into a data frame, with the column
layout the dashboard reads. -/
def toDf (rows : List Row) : DataFrame :=
  ⟨["Symbol", "Sector", "Score", "Prev_Score", "Score_Change", "Weight", "Risk"],
   rows.map fun r =>
     [Cell.str r.symbol, Cell.str r.sector, Cell.num r.score, Cell.num r.prev_score,
      Cell.num r.score_change, Cell.num r.weight, Cell.num r.risk]⟩

/-- The two risk regimes of the Risk Monitor page. -/
inductive Regime where
  | CircuitBreakerActive
  | NormalTrading
deriving DecidableEq

/-- The Risk Regime Evaluator, dashboard.py lines 160-163:
`if vix_level > 25` chooses the circuit-breaker branch. -/
def riskRegime (vix_level : ℚ) : Regime :=
  if vix_level > 25 then Regime.CircuitBreakerActive else Regime.NormalTrading

/-! ## Theorems -/

/-- Claim C6: the Risk Regime Evaluator is a pure total function on any
rational volatility reading (in particular it accepts values outside
`[10.0, 80.0]`, totality being immediate from its type): it returns
`CircuitBreakerActive` exactly when the reading is strictly greater than
the threshold `25.0` and `NormalTrading` otherwise; readings `25.0` and
`18.0` yield `NormalTrading` and `30.0` yields `CircuitBreakerActive`. -/
theorem C6_risk_regime (v : ℚ) :
    (riskRegime v = Regime.CircuitBreakerActive ↔ 25.0 < v)
    ∧ (riskRegime v = Regime.NormalTrading ↔ ¬ 25.0 < v)
    ∧ riskRegime 25.0 = Regime.NormalTrading
    ∧ riskRegime 18.0 = Regime.NormalTrading
    ∧ riskRegime 30.0 = Regime.CircuitBreakerActive := by
  have h25 : (25.0 : ℚ) = 25 := by norm_num
  refine ⟨?_, ?_, by with_unfolding_all decide, by with_unfolding_all decide, by with_unfolding_all decide⟩ <;>
    · rw [h25]
      by_cases h : 25 < v <;> simp [riskRegime, h]

/-- Claim C6, witness: the theorem applied at the in-range reading `30.0`
and at the out-of-range reading `100.0`. -/
theorem C6_risk_regime_witness :
    riskRegime 30.0 = Regime.CircuitBreakerActive
    ∧ riskRegime 100.0 = Regime.CircuitBreakerActive :=
  ⟨(C6_risk_regime 30.0).1.mpr (by norm_num),
   (C6_risk_regime 100.0).1.mpr (by norm_num)⟩

/-- Claim C2: after the Delta Calculator runs, every row's `score_change`
equals `score - prev_score` exactly; and a caller-supplied `score_change`
(here: any values `f r` overwritten into the rows beforehand) is discarded,
so the delta-computed table — hence every downstream output computed from
it, alerts included — does not depend on it. -/
theorem C2_delta (rows : List Dashboard.Row) (f : Dashboard.Row → ℚ) :
    (deltaTable rows).map Row.score_change
        = rows.map (fun r => r.score - r.prev_score)
    ∧ deltaTable (rows.map fun r => setScoreChange r (f r)) = deltaTable rows
    ∧ calculate_alerts (deltaTable (rows.map fun r => setScoreChange r (f r)))
        = calculate_alerts (deltaTable rows) := by
  have h2 : deltaTable (rows.map fun r => setScoreChange r (f r)) = deltaTable rows := by
    simp only [deltaTable, List.map_map]
    rfl
  refine ⟨?_, h2, by rw [h2]⟩
  simp only [deltaTable, List.map_map]
  rfl

/-- Claim C1, counterexample: the alert message the code emits for a row
with score `4.5` carries a leading warning-emoji prefix, so it is not
exactly the pattern text `AAPL: Score < 5.0 → SELL signal` asserted by the
claim. -/
theorem C1_alerts_counterexample :
    calculate_alerts [⟨"AAPL", "Tech", 4.5, 5.0, -0.5, 0.2, 1⟩]
        = ["⚠️ AAPL: Score < 5.0 → SELL signal"]
    ∧ ("⚠️ AAPL: Score < 5.0 → SELL signal" : String)
        ≠ "AAPL: Score < 5.0 → SELL signal" := by
  constructor
  · with_unfolding_all decide
  · with_unfolding_all decide

/-- Claim C1, amended: alert classification is first-match-wins per row —
`calculate_alerts` equals `List.filterMap` of the per-row rule, so each row
contributes its alert (if any) in input order: a `SellSignal` message
exactly when `score < 5.0`, otherwise a `ReviewPosition` message exactly
when `|score_change| > 0.8`, otherwise nothing; the empty table gives the
empty list.  The message texts match the claimed patterns except that the
code prefixes them with an emoji: `"⚠️ "` before the SELL pattern and
`"🔔 "` before the review pattern. -/
theorem C1_alerts_amended (rows : List Dashboard.Row) (r : Dashboard.Row) :
    calculate_alerts rows = rows.filterMap alertLineSpec
    ∧ calculate_alerts ([] : List Dashboard.Row) = []
    ∧ (r.score < 5.0 → alertLineSpec r = some (sellMsg r))
    ∧ (¬ r.score < 5.0 → 0.8 < |r.score_change| →
        alertLineSpec r = some (reviewMsg r))
    ∧ (¬ r.score < 5.0 → ¬ 0.8 < |r.score_change| → alertLineSpec r = none) := by
  refine ⟨?_, rfl, ?_, ?_, ?_⟩
  · induction rows with
    | nil => rfl
    | cons a t ih =>
        by_cases h1 : a.score < 5.0 <;> by_cases h2 : |a.score_change| > 0.8 <;>
          simp [calculate_alerts, alertLineSpec, List.filterMap_cons, h1, h2, ih]
  · intro h1; simp [alertLineSpec, h1]
  · intro h1 h2; simp [alertLineSpec, h1, h2]
  · intro h1 h2; simp [alertLineSpec, h1, h2]

/-- Claim C1, witness: the amended theorem applied to a concrete
three-row table — a sell row (priority over its large delta), a review row
with delta `+1.00`, and a boundary row with score exactly `5.0` and delta
`0` that produces no alert. -/
theorem C1_alerts_amended_witness :
    calculate_alerts
        [⟨"AAPL", "Tech", 4.5, 5.0, -0.9, 0.2, 1⟩,
         ⟨"MSFT", "Tech", 7.0, 6.0, 1.0, 0.2, 1⟩,
         ⟨"GOOG", "Tech", 5.0, 5.0, 0, 0.2, 1⟩]
      = ["⚠️ AAPL: Score < 5.0 → SELL signal",
         "🔔 MSFT: Δ Score +1.00 → Review position"]
    ∧ alertLineSpec ⟨"AAPL", "Tech", 4.5, 5.0, -0.9, 0.2, 1⟩
        = some (sellMsg ⟨"AAPL", "Tech", 4.5, 5.0, -0.9, 0.2, 1⟩)
    ∧ alertLineSpec ⟨"MSFT", "Tech", 7.0, 6.0, 1.0, 0.2, 1⟩
        = some (reviewMsg ⟨"MSFT", "Tech", 7.0, 6.0, 1.0, 0.2, 1⟩)
    ∧ alertLineSpec ⟨"GOOG", "Tech", 5.0, 5.0, 0, 0.2, 1⟩ = none := by
  refine ⟨?_, ?_, ?_, ?_⟩
  · exact (C1_alerts_amended
      [⟨"AAPL", "Tech", 4.5, 5.0, -0.9, 0.2, 1⟩,
       ⟨"MSFT", "Tech", 7.0, 6.0, 1.0, 0.2, 1⟩,
       ⟨"GOOG", "Tech", 5.0, 5.0, 0, 0.2, 1⟩]
      ⟨"GOOG", "Tech", 5.0, 5.0, 0, 0.2, 1⟩).1.trans (by with_unfolding_all decide)
  · exact (C1_alerts_amended [] ⟨"AAPL", "Tech", 4.5, 5.0, -0.9, 0.2, 1⟩).2.2.1
      (by with_unfolding_all decide)
  · exact (C1_alerts_amended [] ⟨"MSFT", "Tech", 7.0, 6.0, 1.0, 0.2, 1⟩).2.2.2.1
      (by with_unfolding_all decide) (by with_unfolding_all decide)
  · exact (C1_alerts_amended [] ⟨"GOOG", "Tech", 5.0, 5.0, 0, 0.2, 1⟩).2.2.2.2
      (by with_unfolding_all decide) (by with_unfolding_all decide)

/-! ### Sector allocation lemmas -/

theorem lookup_map_key (w : String → ℚ) :
    ∀ (ks : List String) (s : String),
      (ks.map fun k => (k, w k)).lookup s = if s ∈ ks then some (w s) else none := by
  intro ks
  induction ks with
  | nil => intro s; simp
  | cons k t ih =>
      intro s
      by_cases h : s = k
      · subst h; simp
      · have hbeq : (s == k) = false := by simp [h]
        simp [List.lookup, hbeq, ih s, h]

theorem sum_map_ite_of_not_mem (a : String) (w : ℚ) :
    ∀ ks : List String, a ∉ ks → (ks.map fun s => if a = s then w else 0).sum = 0 := by
  intro ks
  induction ks with
  | nil => intro _; simp
  | cons k t ih =>
      intro h
      have h1 : a ≠ k := fun hak => h (hak ▸ List.mem_cons_self k t)
      have h2 : a ∉ t := fun ht => h (List.mem_cons_of_mem k ht)
      simp [h1, ih h2]

theorem sum_map_ite_of_mem (a : String) (w : ℚ) :
    ∀ ks : List String, ks.Nodup → a ∈ ks →
      (ks.map fun s => if a = s then w else 0).sum = w := by
  intro ks
  induction ks with
  | nil => intro _ h; simp at h
  | cons k t ih =>
      intro hnd hmem
      rcases List.mem_cons.mp hmem with h | h
      · subst h
        have hnotin : a ∉ t := (List.nodup_cons.mp hnd).1
        simp [sum_map_ite_of_not_mem a w t hnotin]
      · have hne : a ≠ k := by
          rintro rfl
          exact (List.nodup_cons.mp hnd).1 h
        simp [hne, ih (List.nodup_cons.mp hnd).2 h]

theorem sum_map_add_q (f g : String → ℚ) :
    ∀ ks : List String,
      (ks.map fun s => f s + g s).sum = (ks.map f).sum + (ks.map g).sum := by
  intro ks
  induction ks with
  | nil => simp
  | cons k t ih => simp [ih]; ring

theorem sectorWeight_cons (r : Dashboard.Row) (rows : List Dashboard.Row) (s : String) :
    sectorWeight (r :: rows) s
      = (if r.sector = s then r.weight else 0) + sectorWeight rows s := by
  by_cases h : r.sector = s <;> simp [sectorWeight, List.filter_cons, h]

theorem sum_sectorWeight (ks : List String) :
    ∀ rows : List Dashboard.Row, ks.Nodup → (∀ r ∈ rows, r.sector ∈ ks) →
      (ks.map fun s => sectorWeight rows s).sum = (rows.map Row.weight).sum := by
  intro rows
  induction rows with
  | nil => intro _ _; simp [sectorWeight]
  | cons r t ih =>
      intro hnd hmem
      have h1 : ∀ x ∈ t, x.sector ∈ ks := fun x hx => hmem x (List.mem_cons_of_mem r hx)
      have hr : r.sector ∈ ks := hmem r (List.mem_cons_self r t)
      calc (ks.map fun s => sectorWeight (r :: t) s).sum
          = (ks.map fun s =>
              (if r.sector = s then r.weight else 0) + sectorWeight t s).sum := by
            simp only [sectorWeight_cons]
        _ = (ks.map fun s => if r.sector = s then r.weight else 0).sum
              + (ks.map fun s => sectorWeight t s).sum := sum_map_add_q _ _ ks
        _ = r.weight + (t.map Row.weight).sum := by
            rw [sum_map_ite_of_mem r.sector r.weight ks hnd hr, ih hnd h1]
        _ = ((r :: t).map Row.weight).sum := by simp

/-- Claim C3: `sector_allocation` maps exactly the distinct sector values
present in the input (no other keys, no zero-filling for absent sectors) to
the sum of `weight` over the rows sharing that sector; the sum of all
output values equals the sum of `weight` over the whole table; and on the
zero-row table it returns the empty mapping rather than an error. -/
theorem C3_sector_allocation (rows : List Dashboard.Row) (s : String) :
    ((sector_allocation rows).map Prod.snd).sum = (rows.map Row.weight).sum
    ∧ (sector_allocation rows).lookup s
        = (if s ∈ rows.map Row.sector then some (sectorWeight rows s) else none)
    ∧ sector_allocation ([] : List Dashboard.Row) = [] := by
  refine ⟨?_, ?_, rfl⟩
  · have hmem : ∀ r ∈ rows, r.sector ∈ sectors rows := fun r hr =>
      List.mem_dedup.mpr (List.mem_map_of_mem Row.sector hr)
    have h := sum_sectorWeight (sectors rows) rows (List.nodup_dedup _) hmem
    simpa [sector_allocation, List.map_map, Function.comp] using h
  · rw [sector_allocation, lookup_map_key]
    by_cases h : s ∈ rows.map Row.sector <;>
      simp [sectors, List.mem_dedup, h]

/-- Claim C3, witness: the theorem applied to a concrete three-row,
two-sector table. -/
theorem C3_sector_allocation_witness :
    ((sector_allocation
        [⟨"A", "Tech", 6, 5, 0, 0.3, 1⟩, ⟨"B", "Energy", 6, 5, 0, 0.2, 1⟩,
         ⟨"C", "Tech", 6, 5, 0, 0.1, 1⟩]).map Prod.snd).sum = 0.6
    ∧ (sector_allocation
        [⟨"A", "Tech", 6, 5, 0, 0.3, 1⟩, ⟨"B", "Energy", 6, 5, 0, 0.2, 1⟩,
         ⟨"C", "Tech", 6, 5, 0, 0.1, 1⟩]).lookup "Tech" = some 0.4 := by
  constructor
  · exact (C3_sector_allocation
      [⟨"A", "Tech", 6, 5, 0, 0.3, 1⟩, ⟨"B", "Energy", 6, 5, 0, 0.2, 1⟩,
       ⟨"C", "Tech", 6, 5, 0, 0.1, 1⟩] "Tech").1.trans (by with_unfolding_all decide)
  · exact ((C3_sector_allocation
      [⟨"A", "Tech", 6, 5, 0, 0.3, 1⟩, ⟨"B", "Energy", 6, 5, 0, 0.2, 1⟩,
       ⟨"C", "Tech", 6, 5, 0, 0.1, 1⟩] "Tech").2.1).trans (by with_unfolding_all decide)

/-! ### Mean lemmas -/

theorem cellNums_map_num :
    ∀ l : List ℚ, cellNums (l.map Cell.num) = Except.ok l := by
  intro l
  induction l with
  | nil => rfl
  | cons q t ih => simp [cellNums, ih, Except.map]

theorem getCol_toDf_score (rows : List Dashboard.Row) :
    getCol (toDf rows) "Score" = some ((rows.map Row.score).map Cell.num) := by
  have hs : colIdx ["Symbol", "Sector", "Score", "Prev_Score", "Score_Change", "Weight", "Risk"]
      "Score" = some 2 := by decide
  rw [getCol]
  rw [show (toDf rows).cols
      = ["Symbol", "Sector", "Score", "Prev_Score", "Score_Change", "Weight", "Risk"] from rfl]
  rw [hs, Option.map_some']
  rw [show (toDf rows).rows = rows.map (fun r =>
      [Cell.str r.symbol, Cell.str r.sector, Cell.num r.score, Cell.num r.prev_score,
       Cell.num r.score_change, Cell.num r.weight, Cell.num r.risk]) from rfl]
  rw [List.map_map, List.map_map]
  exact congrArg some (List.map_congr_left fun r _ => rfl)

theorem getCol_toDf_risk (rows : List Dashboard.Row) :
    getCol (toDf rows) "Risk" = some ((rows.map Row.risk).map Cell.num) := by
  have hs : colIdx ["Symbol", "Sector", "Score", "Prev_Score", "Score_Change", "Weight", "Risk"]
      "Risk" = some 6 := by decide
  rw [getCol]
  rw [show (toDf rows).cols
      = ["Symbol", "Sector", "Score", "Prev_Score", "Score_Change", "Weight", "Risk"] from rfl]
  rw [hs, Option.map_some']
  rw [show (toDf rows).rows = rows.map (fun r =>
      [Cell.str r.symbol, Cell.str r.sector, Cell.num r.score, Cell.num r.prev_score,
       Cell.num r.score_change, Cell.num r.weight, Cell.num r.risk]) from rfl]
  rw [List.map_map, List.map_map]
  exact congrArg some (List.map_congr_left fun r _ => rfl)

theorem seriesMean_map_num (l : List ℚ) :
    seriesMean (l.map Cell.num)
      = Except.ok (if l.isEmpty then none else some (l.sum / (l.length : ℚ))) := by
  simp [seriesMean, cellNums_map_num, Except.map]

theorem overviewAverageScore_toDf (rows : List Dashboard.Row) :
    overviewAverageScore (toDf rows)
      = Except.ok (if rows.length = 0 then none
                   else some ((rows.map Row.score).sum / (rows.length : ℚ))) := by
  rw [overviewAverageScore, getCol_toDf_score]
  show seriesMean ((rows.map Row.score).map Cell.num) = _
  rw [seriesMean_map_num]
  congr 1
  by_cases h : rows = []
  · subst h; simp
  · have h1 : (rows.map Row.score).isEmpty = false := by
      simpa [List.isEmpty_iff] using h
    have h2 : ¬ rows.length = 0 := by simpa [List.length_eq_zero] using h
    simp [h1, h2]

theorem overviewRiskMean_toDf (rows : List Dashboard.Row) :
    overviewRiskMean (toDf rows)
      = Except.ok (if rows.length = 0 then none
                   else some ((rows.map Row.risk).sum / (rows.length : ℚ))) := by
  rw [overviewRiskMean, getCol_toDf_risk]
  show seriesMean ((rows.map Row.risk).map Cell.num) = _
  rw [seriesMean_map_num]
  congr 1
  by_cases h : rows = []
  · subst h; simp
  · have h1 : (rows.map Row.risk).isEmpty = false := by
      simpa [List.isEmpty_iff] using h
    have h2 : ¬ rows.length = 0 := by simpa [List.length_eq_zero] using h
    simp [h1, h2]

/-- Claim C4, counterexample: on a table with a `Score` column and zero
rows, the Average Score computation returns a value — pandas `NaN`,
embedded `none` — rather than signaling any error condition, so no
`EmptyInput` failure distinct from a NaN result exists in the code. -/
theorem C4_average_counterexample :
    overviewAverageScore ⟨["Score"], []⟩ = Except.ok none
    ∧ exceptIsOk (overviewAverageScore ⟨["Score"], []⟩) = true := by
  constructor <;> with_unfolding_all decide

/-- Claim C4, amended: `average_score` returns the arithmetic mean of
`score` over all rows when the table is non-empty; on a table with zero
rows it returns the pandas `NaN` value (embedded as `none`) instead of
signaling an `EmptyInput` error. -/
theorem C4_average_amended (rows : List Dashboard.Row) :
    overviewAverageScore (toDf rows)
      = Except.ok (if rows.length = 0 then none
                   else some ((rows.map Row.score).sum / (rows.length : ℚ))) :=
  overviewAverageScore_toDf rows

/-- Claim C4, witness: the amended theorem applied to a concrete two-row
table (mean `5.5`) and to the empty table (NaN, i.e. `none`). -/
theorem C4_average_amended_witness :
    overviewAverageScore (toDf [⟨"A", "Tech", 4, 3, 0, 1, 1⟩, ⟨"B", "Oil", 7, 3, 0, 1, 1⟩])
      = Except.ok (some 5.5)
    ∧ overviewAverageScore (toDf []) = Except.ok none := by
  constructor
  · exact (C4_average_amended
      [⟨"A", "Tech", 4, 3, 0, 1, 1⟩, ⟨"B", "Oil", 7, 3, 0, 1, 1⟩]).trans
      (by with_unfolding_all decide)
  · exact (C4_average_amended []).trans (by with_unfolding_all decide)

theorem overviewSharpe_toDf (rows : List Dashboard.Row) :
    overviewSharpe (toDf rows)
      = Except.ok (if rows.length = 0 then none
                   else some (averageScore rows / max (averageRisk rows) 0.1)) := by
  rw [overviewSharpe, overviewAverageScore_toDf, overviewRiskMean_toDf]
  by_cases h : rows.length = 0
  · simp only [h, if_pos rfl, if_true]
    rfl
  · simp only [h, if_neg h]
    rfl

/-- Claim C5, counterexample: normalization never adds a `Risk` column, so
on a table that supplies no risk values because the column is absent
entirely, the Sharpe Estimate raises a `KeyError` instead of evaluating to
`average_score / 0.1`. -/
theorem C5_sharpe_counterexample :
    overviewSharpe (normalizeRequired
        ⟨["Symbol", "Score"], [[Cell.str "AAPL", Cell.num 6]]⟩)
      = Except.error "KeyError" := by
  with_unfolding_all decide

/-- Claim C5, amended: for every table with a numeric `Risk` column, the
Sharpe Estimate equals `average_score / max(average_risk, 0.1)` (NaN,
embedded `none`, on zero rows); in particular when every row's risk is `0`
the result is exactly `average_score / 0.1`.  When the `Risk` column is
absent the code raises `KeyError` rather than treating the average risk as
`0.0` (see the counterexample). -/
theorem C5_sharpe_amended (rows : List Dashboard.Row) :
    overviewSharpe (toDf rows)
      = Except.ok (if rows.length = 0 then none
                   else some (averageScore rows / max (averageRisk rows) 0.1))
    ∧ (rows ≠ [] → (∀ r ∈ rows, r.risk = 0) →
        overviewSharpe (toDf rows) = Except.ok (some (averageScore rows / 0.1))) := by
  refine ⟨overviewSharpe_toDf rows, fun h0 hz => ?_⟩
  have hlen : ¬ rows.length = 0 := by simpa [List.length_eq_zero] using h0
  have hr0 : averageRisk rows = 0 := by
    rw [averageRisk, List.sum_eq_zero, zero_div]
    intro x hx
    rcases List.mem_map.mp hx with ⟨r, hr, rfl⟩
    exact hz r hr
  have hmax : max (averageRisk rows) (0.1 : ℚ) = 0.1 := by
    rw [hr0]
    exact max_eq_right (by norm_num)
  rw [overviewSharpe_toDf, if_neg hlen, hmax]

/-- Claim C5, witness: the amended theorem applied to a one-row table with
risk `0`; the ratio is `6 / 0.1 = 60`. -/
theorem C5_sharpe_amended_witness :
    overviewSharpe (toDf [⟨"A", "Tech", 6, 5, 0, 0.3, 0⟩]) = Except.ok (some 60) := by
  have h := (C5_sharpe_amended [⟨"A", "Tech", 6, 5, 0, 0.3, 0⟩]).2
    (by with_unfolding_all decide) (by with_unfolding_all decide)
  exact h.trans (by with_unfolding_all decide)


/-! ### Column index lemmas -/

theorem colIdx_lt_length :
    ∀ (cs : List String) (c : String) (j : Nat), colIdx cs c = some j → j < cs.length := by
  intro cs
  induction cs with
  | nil => intro c j h; simp [colIdx] at h
  | cons a t ih =>
      intro c j h
      by_cases hac : a = c
      · rw [colIdx, if_pos hac] at h
        cases h
        simp
      · rw [colIdx, if_neg hac] at h
        rcases Option.map_eq_some'.mp h with ⟨j1, hj1, rfl⟩
        have := ih c j1 hj1
        simp only [List.length_cons]
        omega

theorem colIdx_append_left :
    ∀ (cs l : List String) (c : String) (j : Nat),
      colIdx cs c = some j → colIdx (cs ++ l) c = some j := by
  intro cs
  induction cs with
  | nil => intro l c j h; simp [colIdx] at h
  | cons a t ih =>
      intro l c j h
      by_cases hac : a = c
      · rw [colIdx, if_pos hac] at h
        rw [List.cons_append, colIdx, if_pos hac]
        exact h
      · rw [colIdx, if_neg hac] at h
        rcases Option.map_eq_some'.mp h with ⟨j1, hj1, rfl⟩
        rw [List.cons_append, colIdx, if_neg hac, ih l c j1 hj1]
        rfl

theorem colIdx_append_self :
    ∀ (cs : List String) (c : String),
      colIdx cs c = none → colIdx (cs ++ [c]) c = some cs.length := by
  intro cs
  induction cs with
  | nil => intro c _; simp [colIdx]
  | cons a t ih =>
      intro c h
      by_cases hac : a = c
      · rw [colIdx, if_pos hac] at h
        exact absurd h (by simp)
      · rw [colIdx, if_neg hac] at h
        have ht : colIdx t c = none := Option.map_eq_none'.mp h
        rw [List.cons_append, colIdx, if_neg hac, ih c ht]
        rfl

theorem colIdx_append_ne :
    ∀ (cs : List String) (c d : String), d ≠ c → colIdx (cs ++ [c]) d = colIdx cs d := by
  intro cs
  induction cs with
  | nil =>
      intro c d h
      have hcd : (c = d) = False := eq_false fun hcd => h hcd.symm
      simp [colIdx, hcd]
  | cons a t ih =>
      intro c d h
      by_cases had : a = d
      · rw [List.cons_append, colIdx, if_pos had, colIdx, if_pos had]
      · rw [List.cons_append, colIdx, if_neg had, colIdx, if_neg had, ih c d h]

/-! ### Normalizer lemmas -/

theorem Wf_addCol (df : DataFrame) (c : String) (v : Cell) (hwf : Wf df) :
    Wf (addCol df c v) := by
  intro r hr
  rcases List.mem_map.mp hr with ⟨r0, hr0, rfl⟩
  simp [addCol, hwf r0 hr0]

theorem rows_getD_map_append (rows : List (List Cell)) (v : Cell) (i : Nat) :
    (rows.map (· ++ [v])).getD i []
      = if i < rows.length then rows.getD i [] ++ [v] else [] := by
  by_cases hi : i < rows.length
  · rw [if_pos hi]
    rw [List.getD_eq_getElem _ _ (by simpa using hi), List.getElem_map,
      List.getD_eq_getElem _ _ hi]
  · rw [if_neg hi]
    exact List.getD_eq_default _ _ (by simpa using Nat.le_of_not_lt hi)

theorem getD_mem_of_lt (rows : List (List Cell)) (i : Nat) (hi : i < rows.length) :
    rows.getD i [] ∈ rows := by
  rw [List.getD_eq_getElem _ _ hi]
  exact List.getElem_mem hi

theorem getCell_addCol_of_hasCol (df : DataFrame) (c : String) (v : Cell) (d : String)
    (hwf : Wf df) (h : hasCol df d = true) (i : Nat) :
    getCell (addCol df c v) i d = getCell df i d := by
  rcases Option.isSome_iff_exists.mp h with ⟨j, hj⟩
  have hlt : j < df.cols.length := colIdx_lt_length df.cols d j hj
  simp only [getCell, addCol]
  rw [hj, colIdx_append_left df.cols [c] d j hj]
  simp only [Option.map_some']
  congr 1
  rw [rows_getD_map_append]
  by_cases hi : i < df.rows.length
  · rw [if_pos hi]
    have hrlen : (df.rows.getD i []).length = df.cols.length :=
      hwf _ (getD_mem_of_lt df.rows i hi)
    rw [List.getD_append]
    rw [hrlen]
    exact hlt
  · rw [if_neg hi]
    rw [List.getD_eq_default df.rows _ (Nat.le_of_not_lt hi)]

theorem getCell_addCol_self (df : DataFrame) (c : String) (v : Cell)
    (hwf : Wf df) (h : hasCol df c = false) (i : Nat) (hi : i < df.rows.length) :
    getCell (addCol df c v) i c = some v := by
  have hnone : colIdx df.cols c = none := by
    cases hx : colIdx df.cols c with
    | none => rfl
    | some j => rw [hasCol, hx] at h; simp at h
  simp only [getCell, addCol]
  rw [colIdx_append_self df.cols c hnone, Option.map_some']
  rw [rows_getD_map_append, if_pos hi]
  have hrlen : (df.rows.getD i []).length = df.cols.length :=
    hwf _ (getD_mem_of_lt df.rows i hi)
  rw [List.getD_append_right _ _ _ _ (le_of_eq hrlen)]
  rw [hrlen, Nat.sub_self]
  rfl

theorem hasCol_addCol_self (df : DataFrame) (c : String) (v : Cell) :
    hasCol (addCol df c v) c = true := by
  cases hx : colIdx df.cols c with
  | none => simp [hasCol, addCol, colIdx_append_self df.cols c hx]
  | some j => simp [hasCol, addCol, colIdx_append_left df.cols [c] c j hx]

theorem hasCol_addCol_of (df : DataFrame) (c : String) (v : Cell) (d : String)
    (h : hasCol df d = true) : hasCol (addCol df c v) d = true := by
  rcases Option.isSome_iff_exists.mp h with ⟨j, hj⟩
  simp [hasCol, addCol, colIdx_append_left df.cols [c] d j hj]

theorem hasCol_addCol_ne (df : DataFrame) (c : String) (v : Cell) (d : String)
    (h : d ≠ c) : hasCol (addCol df c v) d = hasCol df d := by
  simp [hasCol, addCol, colIdx_append_ne df.cols c d h]

theorem rows_length_addCol (df : DataFrame) (c : String) (v : Cell) :
    (addCol df c v).rows.length = df.rows.length := by
  simp [addCol]

theorem Wf_ensureCol (df : DataFrame) (c : String) (v : Cell) (hwf : Wf df) :
    Wf (ensureCol df c v) := by
  rw [ensureCol]
  by_cases hc : hasCol df c
  · rw [if_pos hc]; exact hwf
  · rw [if_neg hc]; exact Wf_addCol df c v hwf

theorem rows_length_ensureCol (df : DataFrame) (c : String) (v : Cell) :
    (ensureCol df c v).rows.length = df.rows.length := by
  rw [ensureCol]
  by_cases hc : hasCol df c
  · rw [if_pos hc]
  · rw [if_neg hc]; exact rows_length_addCol df c v

theorem getCell_ensureCol_of_hasCol (df : DataFrame) (c : String) (v : Cell) (d : String)
    (i : Nat) (hwf : Wf df) (h : hasCol df d = true) :
    getCell (ensureCol df c v) i d = getCell df i d := by
  rw [ensureCol]
  by_cases hc : hasCol df c
  · rw [if_pos hc]
  · rw [if_neg hc]; exact getCell_addCol_of_hasCol df c v d hwf h i

theorem hasCol_ensureCol_of (df : DataFrame) (c : String) (v : Cell) (d : String)
    (h : hasCol df d = true) : hasCol (ensureCol df c v) d = true := by
  rw [ensureCol]
  by_cases hc : hasCol df c
  · rw [if_pos hc]; exact h
  · rw [if_neg hc]; exact hasCol_addCol_of df c v d h

theorem hasCol_ensureCol_self (df : DataFrame) (c : String) (v : Cell) :
    hasCol (ensureCol df c v) c = true := by
  rw [ensureCol]
  by_cases hc : hasCol df c
  · rw [if_pos hc]; exact hc
  · rw [if_neg hc]; exact hasCol_addCol_self df c v

theorem hasCol_ensureCol_ne (df : DataFrame) (c : String) (v : Cell) (d : String)
    (h : d ≠ c) : hasCol (ensureCol df c v) d = hasCol df d := by
  rw [ensureCol]
  by_cases hc : hasCol df c
  · rw [if_pos hc]
  · rw [if_neg hc]; exact hasCol_addCol_ne df c v d h

theorem getCell_ensureCol_self_absent (df : DataFrame) (c : String) (v : Cell) (i : Nat)
    (hwf : Wf df) (h : hasCol df c = false) (hi : i < df.rows.length) :
    getCell (ensureCol df c v) i c = some v := by
  rw [ensureCol, if_neg (by simp [h])]
  exact getCell_addCol_self df c v hwf h i hi

theorem normalizeAux_cons (c : String) (cs : List String) (df : DataFrame) :
    normalizeAux (c :: cs) df = normalizeAux cs (ensureCol df c (defaultCell c)) := rfl

theorem Wf_normalizeAux :
    ∀ (cs : List String) (df : DataFrame), Wf df → Wf (normalizeAux cs df) := by
  intro cs
  induction cs with
  | nil => intro df h; exact h
  | cons c t ih => intro df h; exact ih _ (Wf_ensureCol df c _ h)

theorem rows_length_normalizeAux :
    ∀ (cs : List String) (df : DataFrame),
      (normalizeAux cs df).rows.length = df.rows.length := by
  intro cs
  induction cs with
  | nil => intro df; rfl
  | cons c t ih => intro df; rw [normalizeAux_cons, ih, rows_length_ensureCol]

theorem hasCol_normalizeAux_of :
    ∀ (cs : List String) (df : DataFrame) (d : String),
      hasCol df d = true → hasCol (normalizeAux cs df) d = true := by
  intro cs
  induction cs with
  | nil => intro df d h; exact h
  | cons c t ih =>
      intro df d h
      exact ih _ d (hasCol_ensureCol_of df c _ d h)

theorem hasCol_normalizeAux_mem :
    ∀ (cs : List String) (df : DataFrame) (d : String),
      d ∈ cs → hasCol (normalizeAux cs df) d = true := by
  intro cs
  induction cs with
  | nil => intro df d h; simp at h
  | cons c t ih =>
      intro df d h
      rcases List.mem_cons.mp h with h1 | h1
      · subst h1
        exact hasCol_normalizeAux_of t _ d (hasCol_ensureCol_self df d _)
      · exact ih _ d h1

theorem getCell_normalizeAux_of_hasCol :
    ∀ (cs : List String) (df : DataFrame) (d : String) (i : Nat),
      Wf df → hasCol df d = true →
        getCell (normalizeAux cs df) i d = getCell df i d := by
  intro cs
  induction cs with
  | nil => intro df d i _ _; rfl
  | cons c t ih =>
      intro df d i hwf h
      rw [normalizeAux_cons,
        ih _ d i (Wf_ensureCol df c _ hwf) (hasCol_ensureCol_of df c _ d h)]
      exact getCell_ensureCol_of_hasCol df c _ d i hwf h

theorem getCell_normalizeAux_default :
    ∀ (cs : List String) (df : DataFrame) (d : String) (i : Nat),
      Wf df → d ∈ cs → hasCol df d = false → i < df.rows.length →
        getCell (normalizeAux cs df) i d = some (defaultCell d) := by
  intro cs
  induction cs with
  | nil => intro df d i _ h _ _; simp at h
  | cons c t ih =>
      intro df d i hwf hmem h hi
      by_cases hdc : d = c
      · subst hdc
        rw [normalizeAux_cons]
        rw [getCell_normalizeAux_of_hasCol t _ d i (Wf_ensureCol df d _ hwf)
          (hasCol_ensureCol_self df d _)]
        exact getCell_ensureCol_self_absent df d _ i hwf h hi
      · have hmem2 : d ∈ t := by
          rcases List.mem_cons.mp hmem with h1 | h1
          · exact absurd h1 hdc
          · exact h1
        rw [normalizeAux_cons]
        refine ih _ d i (Wf_ensureCol df c _ hwf) hmem2 ?_ ?_
        · rw [hasCol_ensureCol_ne df c _ d hdc]; exact h
        · rw [rows_length_ensureCol]; exact hi

/-! ### Series subtraction lemmas -/

theorem cellSub_ok_of_nonStr (a b : Cell) (ha : cellNonStr a = true)
    (hb : cellNonStr b = true) : cellSub a b = Except.ok (cellSubVal a b) := by
  cases a <;> cases b <;> simp_all [cellNonStr, cellSub, cellSubVal]

theorem cellSub_error_of_str (a b : Cell) (h : (cellNonStr a && cellNonStr b) = false) :
    cellSub a b = Except.error "TypeError" := by
  cases a <;> cases b <;> simp_all [cellNonStr, cellSub]

theorem zipSub_eq :
    ∀ (l1 l2 : List Cell), l1.length = l2.length →
      zipSub l1 l2
        = if (l1.all cellNonStr && l2.all cellNonStr) = true
          then Except.ok (List.zipWith cellSubVal l1 l2)
          else Except.error "TypeError" := by
  intro l1
  induction l1 with
  | nil =>
      intro l2 h
      cases l2 with
      | nil => simp [zipSub]
      | cons b tb => simp at h
  | cons a ta ih =>
      intro l2 h
      cases l2 with
      | nil => simp at h
      | cons b tb =>
          have hlen : ta.length = tb.length := by simpa using h
          have e1 : zipSub (a :: ta) (b :: tb)
              = match cellSub a b with
                | Except.error e => Except.error e
                | Except.ok c =>
                    match zipSub ta tb with
                    | Except.error e => Except.error e
                    | Except.ok rest => Except.ok (c :: rest) := rfl
          rw [e1]
          by_cases hab : (cellNonStr a && cellNonStr b) = true
          · obtain ⟨ha, hb⟩ := Bool.and_eq_true_iff.mp hab
            have houter : ((a :: ta).all cellNonStr && (b :: tb).all cellNonStr)
                = (ta.all cellNonStr && tb.all cellNonStr) := by
              simp [List.all_cons, ha, hb]
            rw [cellSub_ok_of_nonStr a b ha hb, ih tb hlen, houter]
            by_cases hall : (ta.all cellNonStr && tb.all cellNonStr) = true
            · rw [if_pos hall, if_pos hall]
              rfl
            · rw [if_neg hall, if_neg hall]
          · have hab2 : (cellNonStr a && cellNonStr b) = false := by
              revert hab
              cases (cellNonStr a && cellNonStr b) <;> simp
            rw [cellSub_error_of_str a b hab2]
            cases hca : cellNonStr a <;> cases hcb : cellNonStr b <;>
              simp_all [List.all_cons]

theorem getCol_length (df : DataFrame) (c : String) (l : List Cell)
    (h : getCol df c = some l) : l.length = df.rows.length := by
  rcases Option.map_eq_some'.mp h with ⟨j, hj, rfl⟩
  simp

/-- Claim C8, counterexample: the table has a fully numeric first row and a
second row whose score is the string `"bad"`; the whole `Score_Change`
assignment raises a `TypeError`, so the valid first row's delta is never
produced, no diagnostic list exists, and one bad row aborts the batch. -/
theorem C8_invalid_record_counterexample :
    computeScoreChange
        ⟨["Symbol", "Score", "Prev_Score"],
         [[Cell.str "AAPL", Cell.num 6, Cell.num 5],
          [Cell.str "MSFT", Cell.str "bad", Cell.num 5]]⟩
      = Except.error "TypeError" := by
  with_unfolding_all decide

/-- Claim C8, amended: the Delta Calculator has no per-row failure
isolation: if any cell of the `Score` or `Prev_Score` column is a
non-numeric string, the whole vectorized subtraction raises `TypeError`
and no row's delta is computed; when every cell is numeric or missing, the
whole column of deltas is computed and written back.  Missing (`NaN`)
cells do not raise — they yield `NaN` deltas per-row. -/
theorem C8_invalid_record_amended (df : DataFrame) (sc pc : List Cell)
    (hs : getCol df "Score" = some sc) (hp : getCol df "Prev_Score" = some pc) :
    ((sc.all cellNonStr && pc.all cellNonStr) = false →
        computeScoreChange df = Except.error "TypeError")
    ∧ (sc.all cellNonStr = true → pc.all cellNonStr = true →
        computeScoreChange df
          = Except.ok (setCol df "Score_Change" (List.zipWith cellSubVal sc pc))) := by
  have hlen : sc.length = pc.length := by
    rw [getCol_length df _ sc hs, getCol_length df _ pc hp]
  constructor
  · intro hbad
    simp only [computeScoreChange, hs, hp]
    rw [zipSub_eq sc pc hlen, if_neg (by simp [hbad])]
    rfl
  · intro h1 h2
    simp only [computeScoreChange, hs, hp]
    rw [zipSub_eq sc pc hlen, if_pos (by simp [h1, h2])]
    rfl

/-- Claim C8, witness: the amended theorem applied to a fully numeric
frame (the delta column is written) and to a frame with one string score
(the whole statement raises). -/
theorem C8_invalid_record_witness :
    computeScoreChange ⟨["Score", "Prev_Score"], [[Cell.num 7, Cell.num 5]]⟩
      = Except.ok ⟨["Score", "Prev_Score", "Score_Change"],
                   [[Cell.num 7, Cell.num 5, Cell.num 2]]⟩
    ∧ computeScoreChange
        ⟨["Score", "Prev_Score"],
         [[Cell.num 7, Cell.num 5], [Cell.str "x", Cell.num 5]]⟩
      = Except.error "TypeError" := by
  constructor
  · exact ((C8_invalid_record_amended
      ⟨["Score", "Prev_Score"], [[Cell.num 7, Cell.num 5]]⟩
      [Cell.num 7] [Cell.num 5] rfl rfl).2 rfl rfl).trans (by with_unfolding_all decide)
  · exact (C8_invalid_record_amended
      ⟨["Score", "Prev_Score"], [[Cell.num 7, Cell.num 5], [Cell.str "x", Cell.num 5]]⟩
      [Cell.num 7, Cell.str "x"] [Cell.num 5, Cell.num 5] rfl rfl).1 rfl

/-- Claim C9, counterexample: after normalization of a table that has
`Symbol`, `Company`, `Sector` and `Score` columns but no `Risk` column,
all four required columns are present, yet the downstream Overview Sharpe
metric still encounters a missing-field `KeyError` — normalization does
not protect downstream operations from missing fields outside the four
required columns. -/
theorem C9_normalizer_counterexample :
    hasCol (normalizeRequired ⟨["Symbol", "Company", "Sector", "Score"],
        [[Cell.str "AAPL", Cell.str "Apple", Cell.str "Tech", Cell.num 6]]⟩)
      "Prev_Score" = true
    ∧ hasCol (normalizeRequired ⟨["Symbol", "Company", "Sector", "Score"],
        [[Cell.str "AAPL", Cell.str "Apple", Cell.str "Tech", Cell.num 6]]⟩)
      "Score_Change" = true
    ∧ hasCol (normalizeRequired ⟨["Symbol", "Company", "Sector", "Score"],
        [[Cell.str "AAPL", Cell.str "Apple", Cell.str "Tech", Cell.num 6]]⟩)
      "Verdict" = true
    ∧ hasCol (normalizeRequired ⟨["Symbol", "Company", "Sector", "Score"],
        [[Cell.str "AAPL", Cell.str "Apple", Cell.str "Tech", Cell.num 6]]⟩)
      "Weight" = true
    ∧ (computeScoreChange (normalizeRequired ⟨["Symbol", "Company", "Sector", "Score"],
        [[Cell.str "AAPL", Cell.str "Apple", Cell.str "Tech", Cell.num 6]]⟩)).bind
        overviewSharpe = Except.error "KeyError" := by
  refine ⟨?_, ?_, ?_, ?_, ?_⟩ <;> with_unfolding_all decide

/-- Claim C9, amended: the Record Schema Normalizer is a total function
that, for every well-formed table with an arbitrary subset of the required
columns, yields a well-formed table of the same row count in which each
required column exists; a missing numeric column is filled with `0.0` on
every row and a missing `Verdict` with `"N/A"`, while every column already
present is left entirely unchanged.  Lookups of the four required columns
can then no longer fail, but the claim's final clause is dropped: other
missing fields (for example `Risk`) still produce missing-field errors
downstream (see the counterexample). -/
theorem C9_normalizer_amended (df : DataFrame) (c : String) (i : Nat) (hwf : Wf df) :
    (c ∈ requiredCols → hasCol (normalizeRequired df) c = true)
    ∧ (hasCol df c = true → getCell (normalizeRequired df) i c = getCell df i c)
    ∧ (c ∈ requiredCols → hasCol df c = false → i < df.rows.length →
        getCell (normalizeRequired df) i c = some (defaultCell c))
    ∧ (normalizeRequired df).rows.length = df.rows.length
    ∧ Wf (normalizeRequired df) :=
  ⟨fun h => hasCol_normalizeAux_mem requiredCols df c h,
   fun h => getCell_normalizeAux_of_hasCol requiredCols df c i hwf h,
   fun h1 h2 h3 => getCell_normalizeAux_default requiredCols df c i hwf h1 h2 h3,
   rows_length_normalizeAux requiredCols df,
   Wf_normalizeAux requiredCols df hwf⟩

/-- Claim C9, witness: the amended theorem applied to a one-row table that
has `Verdict` but lacks the three numeric required columns: `Weight`
becomes present, the supplied `Verdict` cell is untouched, and the absent
`Prev_Score` is filled with `0.0`. -/
theorem C9_normalizer_amended_witness :
    hasCol (normalizeRequired ⟨["Symbol", "Verdict"],
        [[Cell.str "A", Cell.str "Hold"]]⟩) "Weight" = true
    ∧ getCell (normalizeRequired ⟨["Symbol", "Verdict"],
        [[Cell.str "A", Cell.str "Hold"]]⟩) 0 "Verdict" = some (Cell.str "Hold")
    ∧ getCell (normalizeRequired ⟨["Symbol", "Verdict"],
        [[Cell.str "A", Cell.str "Hold"]]⟩) 0 "Prev_Score" = some (Cell.num 0) := by
  refine ⟨?_, ?_, ?_⟩
  · exact (C9_normalizer_amended ⟨["Symbol", "Verdict"], [[Cell.str "A", Cell.str "Hold"]]⟩
      "Weight" 0 (by with_unfolding_all decide)).1 (by with_unfolding_all decide)
  · exact ((C9_normalizer_amended ⟨["Symbol", "Verdict"], [[Cell.str "A", Cell.str "Hold"]]⟩
      "Verdict" 0 (by with_unfolding_all decide)).2.1 (by with_unfolding_all decide)).trans
      (by with_unfolding_all decide)
  · exact ((C9_normalizer_amended ⟨["Symbol", "Verdict"], [[Cell.str "A", Cell.str "Hold"]]⟩
      "Prev_Score" 0 (by with_unfolding_all decide)).2.2.1 (by with_unfolding_all decide)
      (by with_unfolding_all decide) (by with_unfolding_all decide)).trans
      (by with_unfolding_all decide)

/-- Claim C10: normalization defaults are applied at column granularity
only — when a required column is present in the table, every cell of that
column (including missing `NaN` cells) survives normalization unchanged,
and the default is substituted only when the column is absent from the
table entirely. -/
theorem C10_column_granularity (df : DataFrame) (c : String) (i : Nat)
    (hwf : Wf df) (hc : c ∈ requiredCols) :
    (hasCol df c = true → getCell (normalizeRequired df) i c = getCell df i c)
    ∧ (hasCol df c = true → getCell df i c = some Cell.na →
        getCell (normalizeRequired df) i c = some Cell.na)
    ∧ (hasCol df c = false → i < df.rows.length →
        getCell (normalizeRequired df) i c = some (defaultCell c)) :=
  ⟨fun h => getCell_normalizeAux_of_hasCol requiredCols df c i hwf h,
   fun h hna => (getCell_normalizeAux_of_hasCol requiredCols df c i hwf h).trans hna,
   fun h hi => getCell_normalizeAux_default requiredCols df c i hwf hc h hi⟩

/-- Claim C10, witness: a table whose `Prev_Score` column exists but whose
only row holds a missing (`NaN`) cell there; the gap survives
normalization instead of being replaced by the `0.0` default. -/
theorem C10_column_granularity_witness :
    getCell (normalizeRequired ⟨["Prev_Score", "Score"],
        [[Cell.na, Cell.num 6]]⟩) 0 "Prev_Score" = some Cell.na := by
  exact (C10_column_granularity ⟨["Prev_Score", "Score"], [[Cell.na, Cell.num 6]]⟩
    "Prev_Score" 0 (by with_unfolding_all decide) (by with_unfolding_all decide)).2.1
    (by with_unfolding_all decide) (by with_unfolding_all decide)

end Dashboard
